import Mathlib

/-!
Shallow embedding of `src/SPT.cpp` (Copter: one-loop Standard Perturbation
Theory power spectra).

C++ `real` (double) is modelled by `ℚ` with exact arithmetic; division is
Lean's total division on `ℚ` (division by zero yields 0 instead of the IEEE
NaN/Inf).  The external collaborators — the math library (`exp`, `log`,
`M_PI`), and the adaptive quadrature engine `Integrate` (1D and 2D) from
`Quadrature.h` — are out of scope of the core and are abstracted into an
`Env` record of opaque functions; every theorem quantifies over them.  The
`PowerSpectrum` collaborator and the relative tolerance live in the `SPT`
record, mirroring the fields the C++ constructor stores (the `Cosmology`
reference is held but never dereferenced by this core, so it is omitted).
The `warning(...)` side effect of the dispatchers is modelled by state
passing: each dispatcher returns `ℚ × Bool`, the Bool recording whether the
warning sink was invoked.
-/

/-- External collaborators of the core: math library and quadrature engine.
`integrate1 f a b epsrel epsabs` models `Integrate(f, a, b, epsrel, epsabs)`;
`integrate2 f a b epsrel epsabs` models `Integrate<2>(f, a[], b[], epsrel, epsabs)`. -/
structure Env where
  exp : ℚ → ℚ
  log : ℚ → ℚ
  pi : ℚ
  integrate1 : (ℚ → ℚ) → ℚ → ℚ → ℚ → ℚ → ℚ
  integrate2 : (ℚ → ℚ → ℚ) → ℚ × ℚ → ℚ × ℚ → ℚ → ℚ → ℚ

/-- The SPT evaluator: the fields stored by `SPT::SPT(C, P_L, epsrel)`
that the formulas actually read. -/
structure SPT where
  P_L : ℚ → ℚ
  epsrel : ℚ

/-- `const real QMIN = 1e-5;` -/
def QMIN : ℚ := 1e-5

/-- `const real QMAX = 1e5;` -/
def QMAX : ℚ := 1e5

/-- `pow2(x)` from the Copter math helpers. -/
def pow2 (x : ℚ) : ℚ := x*x

/-- `pow3(x)` from the Copter math helpers. -/
def pow3 (x : ℚ) : ℚ := x*x*x

/-- `pow4(x)` from the Copter math helpers. -/
def pow4 (x : ℚ) : ℚ := x*x*x*x

/-- `pow6(x)` from the Copter math helpers. -/
def pow6 (x : ℚ) : ℚ := x*x*x*x*x*x

/-- `static real F2(real k, real q, real r)` — the second-order density
kernel, with the arguments clamped to at least `QMIN`. -/
def F2 (k q r : ℚ) : ℚ :=
  let q := max q QMIN
  let r := max r QMIN
  let k2 := k*k
  let q2 := q*q
  let r2 := r*r
  (5/7) + (1/14) * pow2 (k2 - q2 - r2) / (q2*r2) + (1/4) * (k2 - q2 - r2) * (1/q2 + 1/r2)

/-- `static real G2(real k, real q, real r)` — the second-order
velocity-divergence kernel, with the arguments clamped to at least `QMIN`. -/
def G2 (k q r : ℚ) : ℚ :=
  let q := max q QMIN
  let r := max r QMIN
  let k2 := k*k
  let q2 := q*q
  let r2 := r*r
  (3/7) + (1/7) * pow2 (k2 - q2 - r2) / (q2*r2) + (1/4) * (k2 - q2 - r2) * (1/q2 + 1/r2)

/-- `static real P22_dd_integrand(const PowerSpectrum& P_L, real k, real logu, real v)`. -/
def P22_dd_integrand (env : Env) (P_L : ℚ → ℚ) (k logu v : ℚ) : ℚ :=
  let u := env.exp logu
  let q := (k/2)*(u - v)
  let r := (k/2)*(u + v)
  u * q * r * P_L q * P_L r * pow2 (F2 k q r)

/-- `static real P22_dt_integrand(const PowerSpectrum& P_L, real k, real logu, real v)`. -/
def P22_dt_integrand (env : Env) (P_L : ℚ → ℚ) (k logu v : ℚ) : ℚ :=
  let u := env.exp logu
  let q := (k/2)*(u - v)
  let r := (k/2)*(u + v)
  u * q * r * P_L q * P_L r * F2 k q r * G2 k q r

/-- `static real P22_tt_integrand(const PowerSpectrum& P_L, real k, real logu, real v)`. -/
def P22_tt_integrand (env : Env) (P_L : ℚ → ℚ) (k logu v : ℚ) : ℚ :=
  let u := env.exp logu
  let q := (k/2)*(u - v)
  let r := (k/2)*(u + v)
  u * q * r * P_L q * P_L r * pow2 (G2 k q r)

/-- `template<class P22Integrand> static double ComputeP22Integral(f, P_L, k, epsrel, qmax)` —
the shared 2D driver: returns 0 immediately when `k ≤ 0`, otherwise scales
the quadrature value of the integrand over the `(logu, v)` rectangle. -/
def ComputeP22Integral (env : Env) (f : (ℚ → ℚ) → ℚ → ℚ → ℚ → ℚ)
    (P_L : ℚ → ℚ) (k epsrel qmax : ℚ) : ℚ :=
  if k ≤ 0 then 0
  else
    let umin : ℚ := 1
    let umax := 2*qmax/k
    let vmin : ℚ := 0
    let vmax : ℚ := 1
    let a := (env.log umin, vmin)
    let b := (env.log umax, vmax)
    let V := k / (2*env.pi*env.pi)
    V * env.integrate2 (fun logu v => f P_L k logu v) a b epsrel (epsrel * P_L k / V)

/-- `real SPT::P22_dd(real k) const`. -/
def SPT.P22_dd (env : Env) (t : SPT) (k : ℚ) : ℚ :=
  ComputeP22Integral env (P22_dd_integrand env) t.P_L k t.epsrel QMAX

/-- `real SPT::P22_dt(real k) const`. -/
def SPT.P22_dt (env : Env) (t : SPT) (k : ℚ) : ℚ :=
  ComputeP22Integral env (P22_dt_integrand env) t.P_L k t.epsrel QMAX

/-- `real SPT::P22_tt(real k) const`. -/
def SPT.P22_tt (env : Env) (t : SPT) (k : ℚ) : ℚ :=
  ComputeP22Integral env (P22_tt_integrand env) t.P_L k t.epsrel QMAX

/-- `static real f13_dd(const PowerSpectrum& P_L, real k, real logq)` — the
density P13 integrand, with the piecewise bracket function `s(r)`. -/
def f13_dd (env : Env) (P_L : ℚ → ℚ) (k logq : ℚ) : ℚ :=
  let q := env.exp logq
  let r := q/k
  let s :=
    if r < 1e-2 then
      -168 + (928/5)*pow2 r - (4512/35)*pow4 r + (416/21)*pow6 r
    else if |r - 1| < 1e-10 then
      -88 + 8*(r - 1)
    else if r > 100 then
      -488/5 + (96/5)/pow2 r - (160/21)/pow4 r - (1376/1155)/pow6 r
    else
      12/pow2 r - 158 + 100*pow2 r - 42*pow4 r
        + 3/pow3 r * pow3 (r*r - 1) * (7*r*r + 2) * env.log ((1+r)/|1-r|)
  q * P_L q * s

/-- `real SPT::P13_dd(real k) const`. -/
def SPT.P13_dd (env : Env) (t : SPT) (k : ℚ) : ℚ :=
  let a := env.log QMIN
  let b := env.log QMAX
  let V := k*k/(252*4*env.pi*env.pi) * t.P_L k
  V * env.integrate1 (fun logq => f13_dd env t.P_L k logq) a b t.epsrel (t.epsrel * t.P_L k / V)

/-- `static real f13_dt(const PowerSpectrum& P_L, real k, real logq)`. -/
def f13_dt (env : Env) (P_L : ℚ → ℚ) (k logq : ℚ) : ℚ :=
  let q := env.exp logq
  let r := q/k
  let s :=
    if r < 1e-2 then
      -168 + (416/5)*pow2 r - (2976/35)*pow4 r + (224/15)*pow6 r
    else if |r - 1| < 1e-10 then
      -152 - 56*(r - 1)
    else if r > 100 then
      -200 + (2208/35)/pow2 r - (1312/105)/pow4 r - (1888/1155)/pow6 r
    else
      24/pow2 r - 202 + 56*pow2 r - 30*pow4 r
        + 3/pow3 r * pow3 (r*r - 1) * (5*r*r + 4) * env.log ((1+r)/|1-r|)
  q * P_L q * s

/-- `real SPT::P13_dt(real k) const`. -/
def SPT.P13_dt (env : Env) (t : SPT) (k : ℚ) : ℚ :=
  let a := env.log QMIN
  let b := env.log QMAX
  let V := k*k/(252*4*env.pi*env.pi) * t.P_L k
  V * env.integrate1 (fun logq => f13_dt env t.P_L k logq) a b t.epsrel (t.epsrel * t.P_L k / V)

/-- `static real f13_tt(const PowerSpectrum& P_L, real k, real logq)`. -/
def f13_tt (env : Env) (P_L : ℚ → ℚ) (k logq : ℚ) : ℚ :=
  let q := env.exp logq
  let r := q/k
  let s :=
    if r < 1e-2 then
      -56 - (32/5)*pow2 r - (96/7)*pow4 r + (352/105)*pow6 r
    else if |r - 1| < 1e-10 then
      -72 - 40*(r - 1)
    else if r > 100 then
      -504/5 + (1248/35)/pow2 r - (608/105)/pow4 r - (160/231)/pow6 r
    else
      12/pow2 r - 82 + 4*pow2 r - 6*pow4 r
        + 3/pow3 r * pow3 (r*r - 1) * (r*r + 2) * env.log ((1+r)/|1-r|)
  q * P_L q * s

/-- `real SPT::P13_tt(real k) const` — note the `84` (not `252`) in the prefactor. -/
def SPT.P13_tt (env : Env) (t : SPT) (k : ℚ) : ℚ :=
  let a := env.log QMIN
  let b := env.log QMAX
  let V := k*k/(84*4*env.pi*env.pi) * t.P_L k
  V * env.integrate1 (fun logq => f13_tt env t.P_L k logq) a b t.epsrel (t.epsrel * t.P_L k / V)

/-- `real SPT::P(real k, int a, int b) const` — dispatch on `a*b`; the Bool is
true exactly when the `warning(...)` sink was invoked (default branch). -/
def SPT.P (env : Env) (t : SPT) (k : ℚ) (a b : ℤ) : ℚ × Bool :=
  if a*b = 1 then (t.P_L k + SPT.P13_dd env t k + SPT.P22_dd env t k, false)
  else if a*b = 2 then (t.P_L k + SPT.P13_dt env t k + SPT.P22_dt env t k, false)
  else if a*b = 4 then (t.P_L k + SPT.P13_tt env t k + SPT.P22_tt env t k, false)
  else (0, true)

/-- `real SPT::P22(real k, int a, int b) const`. -/
def SPT.P22 (env : Env) (t : SPT) (k : ℚ) (a b : ℤ) : ℚ × Bool :=
  if a*b = 1 then (SPT.P22_dd env t k, false)
  else if a*b = 2 then (SPT.P22_dt env t k, false)
  else if a*b = 4 then (SPT.P22_tt env t k, false)
  else (0, true)

/-- `real SPT::P13(real k, int a, int b) const`. -/
def SPT.P13 (env : Env) (t : SPT) (k : ℚ) (a b : ℤ) : ℚ × Bool :=
  if a*b = 1 then (SPT.P13_dd env t k, false)
  else if a*b = 2 then (SPT.P13_dt env t k, false)
  else if a*b = 4 then (SPT.P13_tt env t k, false)
  else (0, true)

/-- `real SPT::G(real k) const` — `1 + 0.5*P13_dd(k)/P_L(k)`, with no guard
on the denominator. -/
def SPT.G (env : Env) (t : SPT) (k : ℚ) : ℚ :=
  1 + 0.5 * SPT.P13_dd env t k / t.P_L k

/-- A concrete environment for evaluating the model on closed inputs:
identity transcendentals, π = 1, and a quadrature stub returning 1. -/
def env1 : Env where
  exp := id
  log := id
  pi := 1
  integrate1 := fun _ _ _ _ _ => 1
  integrate2 := fun _ _ _ _ _ => 1

/-- `env1` with the 1D quadrature stub returning 0 instead of 1: differs from
`env1` only in the quadrature engine. -/
def env2 : Env := { env1 with integrate1 := fun _ _ _ _ _ => 0 }

/-- A concrete evaluator with unit linear power spectrum. -/
def spt0 : SPT where
  P_L := fun _ => 1
  epsrel := 1/1000

/-- A concrete evaluator whose linear power spectrum is identically zero. -/
def sptZero : SPT where
  P_L := fun _ => 0
  epsrel := 1/1000

/-- The dd bracket function s(r) exactly as the spec states it (§4.4 and the
claim): thresholds on r alone, a 4-term polynomial in r² below 1e-2, a linear
expansion in (r−1) inside the 1e-10 window, inverse powers of r down to r⁻⁶
above 100, and otherwise A/r² − B + C·r² − D·r⁴ + (3/r³)(r²−1)³(E·r²+F)·ln((1+r)/|1−r|)
with (A,B,C,D,E,F) = (12,158,100,42,7,2). -/
def s13_dd_spec (lg : ℚ → ℚ) (r : ℚ) : ℚ :=
  if r < 1e-2 then -168 + (928/5)*r^2 - (4512/35)*r^4 + (416/21)*r^6
  else if |r - 1| < 1e-10 then -88 + 8*(r - 1)
  else if r > 100 then -488/5 + (96/5)/r^2 - (160/21)/r^4 - (1376/1155)/r^6
  else 12/r^2 - 158 + 100*r^2 - 42*r^4 + (3/r^3)*(r^2 - 1)^3*(7*r^2 + 2)*lg ((1+r)/|1-r|)

/-- The dt bracket function s(r) as the spec states it, with
(A,B,C,D,E,F) = (24,202,56,30,5,4). -/
def s13_dt_spec (lg : ℚ → ℚ) (r : ℚ) : ℚ :=
  if r < 1e-2 then -168 + (416/5)*r^2 - (2976/35)*r^4 + (224/15)*r^6
  else if |r - 1| < 1e-10 then -152 - 56*(r - 1)
  else if r > 100 then -200 + (2208/35)/r^2 - (1312/105)/r^4 - (1888/1155)/r^6
  else 24/r^2 - 202 + 56*r^2 - 30*r^4 + (3/r^3)*(r^2 - 1)^3*(5*r^2 + 4)*lg ((1+r)/|1-r|)

/-- The tt bracket function s(r) as the spec states it, with
(A,B,C,D,E,F) = (12,82,4,6,1,2). -/
def s13_tt_spec (lg : ℚ → ℚ) (r : ℚ) : ℚ :=
  if r < 1e-2 then -56 - (32/5)*r^2 - (96/7)*r^4 + (352/105)*r^6
  else if |r - 1| < 1e-10 then -72 - 40*(r - 1)
  else if r > 100 then -504/5 + (1248/35)/r^2 - (608/105)/r^4 - (160/231)/r^6
  else 12/r^2 - 82 + 4*r^2 - 6*r^4 + (3/r^3)*(r^2 - 1)^3*(r^2 + 2)*lg ((1+r)/|1-r|)

/-- C1: for every k > 0 and every field pair (a,b) with a,b ∈ {1,2},
P(k,a,b) = P_L(k) + P13(k,a,b) + P22(k,a,b), where P13 and P22 are the
public loop-term accessors dispatched on the same pair. -/
theorem P_tree_plus_loops (env : Env) (t : SPT) (k : ℚ) (a b : ℤ)
    (hk : 0 < k) (ha : a = 1 ∨ a = 2) (hb : b = 1 ∨ b = 2) :
    (SPT.P env t k a b).1 = t.P_L k + (SPT.P13 env t k a b).1 + (SPT.P22 env t k a b).1 := by
  rcases ha with rfl | rfl <;> rcases hb with rfl | rfl <;>
    norm_num [SPT.P, SPT.P13, SPT.P22]

/-- Witness for C1 at k = 1, (a,b) = (1,1). -/
theorem P_tree_plus_loops_w :
    (SPT.P env1 spt0 1 1 1).1 = spt0.P_L 1 + (SPT.P13 env1 spt0 1 1 1).1 + (SPT.P22 env1 spt0 1 1 1).1 :=
  P_tree_plus_loops env1 spt0 1 1 1 (by norm_num) (Or.inl rfl) (Or.inl rfl)

/-- C2: each P13 integrand (dd, dt, tt) returns q·P_L(q)·s(r) with q = exp(logq),
r = q/k, and s the piecewise bracket function as stated by the spec
(thresholds on r alone; dd general-case constants A=12, B=158, C=100, D=42,
E=7, F=2). -/
theorem f13_piecewise (env : Env) (P_L : ℚ → ℚ) (k logq : ℚ) :
    f13_dd env P_L k logq
        = env.exp logq * P_L (env.exp logq) * s13_dd_spec env.log (env.exp logq / k)
      ∧ f13_dt env P_L k logq
        = env.exp logq * P_L (env.exp logq) * s13_dt_spec env.log (env.exp logq / k)
      ∧ f13_tt env P_L k logq
        = env.exp logq * P_L (env.exp logq) * s13_tt_spec env.log (env.exp logq / k) := by
  refine ⟨?_, ?_, ?_⟩ <;>
    · simp only [f13_dd, f13_dt, f13_tt, s13_dd_spec, s13_dt_spec, s13_tt_spec,
        pow2, pow3, pow4, pow6]
      split_ifs <;> ring

/-- C3: F2 and G2 equal the stated closed forms in the clamped momenta
q' = max(q, QMIN), r' = max(r, QMIN), and the clamp keeps both denominators
positive for all rational inputs (no division by zero). -/
theorem F2_G2_closed_form (k q r : ℚ) :
    F2 k q r = 5/7 + (1/14) * (k^2 - (max q QMIN)^2 - (max r QMIN)^2)^2 / ((max q QMIN)^2 * (max r QMIN)^2)
        + (1/4) * (k^2 - (max q QMIN)^2 - (max r QMIN)^2) * (1/(max q QMIN)^2 + 1/(max r QMIN)^2)
      ∧ G2 k q r = 3/7 + (1/7) * (k^2 - (max q QMIN)^2 - (max r QMIN)^2)^2 / ((max q QMIN)^2 * (max r QMIN)^2)
        + (1/4) * (k^2 - (max q QMIN)^2 - (max r QMIN)^2) * (1/(max q QMIN)^2 + 1/(max r QMIN)^2)
      ∧ 0 < max q QMIN ∧ 0 < max r QMIN := by
  have hq : (0:ℚ) < max q QMIN :=
    lt_of_lt_of_le (by norm_num [QMIN]) (le_max_right q QMIN)
  have hr : (0:ℚ) < max r QMIN :=
    lt_of_lt_of_le (by norm_num [QMIN]) (le_max_right r QMIN)
  refine ⟨?_, ?_, hq, hr⟩ <;>
    · simp only [F2, G2, pow2]
      ring

/-- C4 counterexample: at (a,b) = (4,1) — a outside {1,2} — `P` emits no
warning and returns the nonzero tt value, refuting "every pair with a
component outside {1,2} warns and returns 0". -/
theorem invalid_index_no_warning_cx :
    (SPT.P env1 spt0 1 4 1).2 = false ∧ (SPT.P env1 spt0 1 4 1).1 ≠ 0 := by
  refine ⟨rfl, ?_⟩
  norm_num [SPT.P, SPT.P13_tt, SPT.P22_tt, ComputeP22Integral, env1, spt0, QMIN, QMAX]

/-- C4 (amended): for every pair whose product a·b lies outside {1,2,4},
each of P, P22 and P13 invokes the warning sink and returns 0. -/
theorem invalid_product_warns_zero (env : Env) (t : SPT) (k : ℚ) (a b : ℤ)
    (h1 : a*b ≠ 1) (h2 : a*b ≠ 2) (h4 : a*b ≠ 4) :
    SPT.P env t k a b = (0, true) ∧ SPT.P22 env t k a b = (0, true)
      ∧ SPT.P13 env t k a b = (0, true) := by
  refine ⟨?_, ?_, ?_⟩ <;> simp [SPT.P, SPT.P22, SPT.P13, h1, h2, h4]

/-- Witness for the amended C4 at (a,b) = (3,1). -/
theorem invalid_product_warns_zero_w :
    SPT.P env1 spt0 1 3 1 = (0, true) ∧ SPT.P22 env1 spt0 1 3 1 = (0, true)
      ∧ SPT.P13 env1 spt0 1 3 1 = (0, true) :=
  invalid_product_warns_zero env1 spt0 1 3 1 (by decide) (by decide) (by decide)

/-- C5 counterexample: at k = −1 ≤ 0 the dd driver's output still tracks the
quadrature engine (`env1` and `env2` differ only in `integrate1`), so the
driver does not validate k ≤ 0 and fail fast — it evaluates the integrand
(which divides by k) and propagates the result. -/
theorem p13_driver_kle0_cx :
    SPT.P13_dd env1 spt0 (-1) ≠ SPT.P13_dd env2 spt0 (-1)
      ∧ SPT.P13_dd env1 spt0 (-1) = 1/1008 := by
  constructor <;> norm_num [SPT.P13_dd, env1, env2, spt0, QMIN, QMAX]

/-- C5 (amended): the P13 drivers perform no k ≤ 0 validation: for every
k ≤ 0 each still returns the ordinary quadrature-based value
V·Integrate(f13, log QMIN, log QMAX, epsrel, epsrel·P_L(k)/V) — no typed
error is produced. -/
theorem p13_driver_no_guard (env : Env) (t : SPT) (k : ℚ) (hk : k ≤ 0) :
    SPT.P13_dd env t k
        = (k*k/(252*4*env.pi*env.pi) * t.P_L k)
            * env.integrate1 (fun logq => f13_dd env t.P_L k logq)
              (env.log QMIN) (env.log QMAX) t.epsrel
              (t.epsrel * t.P_L k / (k*k/(252*4*env.pi*env.pi) * t.P_L k))
      ∧ SPT.P13_dt env t k
        = (k*k/(252*4*env.pi*env.pi) * t.P_L k)
            * env.integrate1 (fun logq => f13_dt env t.P_L k logq)
              (env.log QMIN) (env.log QMAX) t.epsrel
              (t.epsrel * t.P_L k / (k*k/(252*4*env.pi*env.pi) * t.P_L k))
      ∧ SPT.P13_tt env t k
        = (k*k/(84*4*env.pi*env.pi) * t.P_L k)
            * env.integrate1 (fun logq => f13_tt env t.P_L k logq)
              (env.log QMIN) (env.log QMAX) t.epsrel
              (t.epsrel * t.P_L k / (k*k/(84*4*env.pi*env.pi) * t.P_L k)) :=
  ⟨rfl, rfl, rfl⟩

/-- Witness for the amended C5 at k = −1. -/
theorem p13_driver_no_guard_w :
    SPT.P13_dd env1 spt0 (-1)
        = ((-1)*(-1)/(252*4*env1.pi*env1.pi) * spt0.P_L (-1))
            * env1.integrate1 (fun logq => f13_dd env1 spt0.P_L (-1) logq)
              (env1.log QMIN) (env1.log QMAX) spt0.epsrel
              (spt0.epsrel * spt0.P_L (-1) / ((-1)*(-1)/(252*4*env1.pi*env1.pi) * spt0.P_L (-1)))
      ∧ SPT.P13_dt env1 spt0 (-1)
        = ((-1)*(-1)/(252*4*env1.pi*env1.pi) * spt0.P_L (-1))
            * env1.integrate1 (fun logq => f13_dt env1 spt0.P_L (-1) logq)
              (env1.log QMIN) (env1.log QMAX) spt0.epsrel
              (spt0.epsrel * spt0.P_L (-1) / ((-1)*(-1)/(252*4*env1.pi*env1.pi) * spt0.P_L (-1)))
      ∧ SPT.P13_tt env1 spt0 (-1)
        = ((-1)*(-1)/(84*4*env1.pi*env1.pi) * spt0.P_L (-1))
            * env1.integrate1 (fun logq => f13_tt env1 spt0.P_L (-1) logq)
              (env1.log QMIN) (env1.log QMAX) spt0.epsrel
              (spt0.epsrel * spt0.P_L (-1) / ((-1)*(-1)/(84*4*env1.pi*env1.pi) * spt0.P_L (-1))) :=
  p13_driver_no_guard env1 spt0 (-1) (by norm_num)

/-- C6 counterexample: with a linear spectrum that is identically zero,
G(1) still returns the plain value 1 — the P_L(k) = 0 case is not validated
and no typed error is surfaced (in C++ the division yields NaN/Inf; under
the total-division embedding the quotient collapses to 0). -/
theorem G_zero_pl_cx :
    sptZero.P_L 1 = 0 ∧ SPT.G env1 sptZero 1 = 1 := by
  refine ⟨rfl, ?_⟩
  norm_num [SPT.G, SPT.P13_dd, env1, sptZero]

/-- C6 (amended): G(k) returns 1 + 0.5·P13_dd(k)/P_L(k) with the division
performed unconditionally — the case P_L(k) = 0 is not guarded. -/
theorem G_formula_unguarded (env : Env) (t : SPT) (k : ℚ) :
    SPT.G env t k = 1 + 0.5 * SPT.P13_dd env t k / t.P_L k :=
  rfl

/-- C7: for every k ≤ 0 and valid field pair, the P22 driver returns 0
regardless of the quadrature engine and integrand (the guard short-circuits
before either is consulted). -/
theorem P22_nonpositive_k_zero (env : Env) (t : SPT) (k : ℚ) (a b : ℤ)
    (hk : k ≤ 0) (ha : a = 1 ∨ a = 2) (hb : b = 1 ∨ b = 2) :
    (SPT.P22 env t k a b).1 = 0 := by
  rcases ha with rfl | rfl <;> rcases hb with rfl | rfl <;>
    norm_num [SPT.P22, SPT.P22_dd, SPT.P22_dt, SPT.P22_tt, ComputeP22Integral, hk]

/-- Witness for C7 at k = −1, (a,b) = (1,1). -/
theorem P22_nonpositive_k_zero_w :
    (SPT.P22 env1 spt0 (-1) 1 1).1 = 0 :=
  P22_nonpositive_k_zero env1 spt0 (-1) 1 1 (by norm_num) (Or.inl rfl) (Or.inl rfl)

/-- C8: dispatch is symmetric in the field indices: P, P22 and P13 agree on
(1,2) and (2,1) (value and warning flag alike), since dispatch keys on a·b. -/
theorem dispatch_symmetric (env : Env) (t : SPT) (k : ℚ) :
    SPT.P env t k 1 2 = SPT.P env t k 2 1
      ∧ SPT.P22 env t k 1 2 = SPT.P22 env t k 2 1
      ∧ SPT.P13 env t k 1 2 = SPT.P13 env t k 2 1 :=
  ⟨rfl, rfl, rfl⟩

/-- C9: F2 and G2 are symmetric under swapping their last two arguments. -/
theorem F2_G2_swap_symmetric (k q r : ℚ) :
    F2 k q r = F2 k r q ∧ G2 k q r = G2 k r q := by
  constructor <;>
    · simp only [F2, G2, pow2]
      ring

/-- C10: dispatch depends on the indices only through the product a·b:
(4,1) has product 4, so P, P22 and P13 at (4,1) return the tt result of
(2,2) and emit no diagnostic. -/
theorem product_dispatch_tt_alias (env : Env) (t : SPT) (k : ℚ) :
    SPT.P env t k 4 1 = SPT.P env t k 2 2 ∧ (SPT.P env t k 4 1).2 = false
      ∧ SPT.P22 env t k 4 1 = SPT.P22 env t k 2 2 ∧ (SPT.P22 env t k 4 1).2 = false
      ∧ SPT.P13 env t k 4 1 = SPT.P13 env t k 2 2 ∧ (SPT.P13 env t k 4 1).2 = false :=
  ⟨rfl, rfl, rfl, rfl, rfl, rfl⟩
